import Mathlib

/-!
Shallow embedding of the split-view-scroller browser extension
(content script `content.js`, background relay `background.js`,
settings popup `popup.js`) and verification of its specification.

Conventions of the embedding:
* JavaScript numbers holding scroll offsets/percentages are modelled as
  rationals (ℚ); element heights as integers (ℤ) so that the subtraction
  `scrollHeight - clientHeight` can go non-positive as in the source.
* A JavaScript value that may be `undefined` is modelled as an `Option`.
* Group identifiers (`tab.splitViewId`, and the strings built by
  `getSplitViewId`) are modelled as `String`; JavaScript strict equality
  `===` on them is string equality.
* Fallible message sends (`chrome.tabs.sendMessage`, wrapped in
  `try/catch` in the source) are modelled by an oracle
  `send : ℕ → Except String Unit` giving each tab id's delivery outcome.
-/

namespace SplitViewScroller

/-- The sync mode enum: the source uses the strings `'percentage'` and
`'pixel'`. -/
inductive SyncMode where
  | percentage
  | pixel
deriving DecidableEq

/-- Scroll metrics emitted by the Observer, from `calculateScrollMetrics`
in `content.js`: a relative position and a raw pixel offset. -/
structure ScrollMetrics where
  percentage : ℚ
  pixel : ℚ
deriving DecidableEq

/-- The document geometry and scroll offset a content script reads:
`document.documentElement.scrollHeight`, `.clientHeight`, `window.scrollY`. -/
structure Page where
  scrollHeight : ℤ
  clientHeight : ℤ
  scrollY : ℚ
deriving DecidableEq

/-- The spec's scrollable range R = scrollHeight − viewportHeight. -/
def scrollableRange (p : Page) : ℤ :=
  p.scrollHeight - p.clientHeight

/-- Embedding of `calculateScrollMetrics` (content.js lines 91-103):
computes `scrollHeight - clientHeight` inline, returns `null` when it is
`<= 0`, else the percentage `scrollY / scrollHeight` and the raw pixel. -/
def calculateScrollMetrics (p : Page) : Option ScrollMetrics :=
  let scrollHeight := p.scrollHeight - p.clientHeight
  if scrollHeight ≤ 0 then
    none
  else
    some { percentage := p.scrollY / (scrollHeight : ℚ), pixel := p.scrollY }

/-- The mutable `ScrollState` object of `content.js` (the numeric
`syncTimeout` field is the constant `syncTimeout` below). -/
structure ScrollState where
  isSyncing : Bool
  enableSync : Bool
  syncMode : SyncMode
  isScrollScheduled : Bool
deriving DecidableEq

/-- `ScrollState.syncTimeout`: milliseconds to wait after a sync before
re-enabling outbound scroll events. -/
def syncTimeout : ℕ := 50

/-- The primitive operations `handleUserScroll` performs, in source
order, used to reason about the order of effects inside one run of the
handler. -/
inductive Action where
  | checkGate
  | computeMetrics
  | emit
  | clearScheduled
deriving DecidableEq

/-- Result of one synchronous run of `handleUserScroll`: the updated
state, the outbound `SCROLL_EVENT` payload if one was sent, and the
trace of primitive actions in the order the source performs them. -/
structure EmissionResult where
  state : ScrollState
  emitted : Option ScrollMetrics
  trace : List Action
deriving DecidableEq

/-- Embedding of `handleUserScroll` (content.js lines 68-88).  The source
first tests `!enableSync || isSyncing` and returns after clearing
`isScrollScheduled`; then computes metrics and returns after clearing the
flag when the page has no scroll; otherwise sends the scroll event and
clears the flag afterwards.  On every path the flag is cleared as the
last operation of that path. -/
def handleUserScroll (s : ScrollState) (p : Page) : EmissionResult :=
  if !s.enableSync || s.isSyncing then
    { state := { s with isScrollScheduled := false },
      emitted := none,
      trace := [.checkGate, .clearScheduled] }
  else
    match calculateScrollMetrics p with
    | none =>
        { state := { s with isScrollScheduled := false },
          emitted := none,
          trace := [.checkGate, .computeMetrics, .clearScheduled] }
    | some m =>
        { state := { s with isScrollScheduled := false },
          emitted := some m,
          trace := [.checkGate, .computeMetrics, .emit, .clearScheduled] }

/-- A `SYNC_SCROLL` payload as received by a content script: the metrics
copied from the originating event, plus the relay-time sync mode (absent
only if the message did not travel through the Router's tagging). -/
structure SyncCommand where
  percentage : ℚ
  pixel : ℚ
  syncMode : Option SyncMode
deriving DecidableEq

/-- Embedding of `calculateTargetScrollPosition` (content.js lines
157-169): `message.payload.syncMode || ScrollState.syncMode`, then
percentage mode multiplies by the receiving page's own
`scrollHeight - clientHeight`, and any other mode returns the raw pixel
value unmodified. -/
def calculateTargetScrollPosition (s : ScrollState) (p : Page) (cmd : SyncCommand) : ℚ :=
  let currentSyncMode := cmd.syncMode.getD s.syncMode
  if currentSyncMode = .percentage then
    cmd.percentage * ((p.scrollHeight - p.clientHeight : ℤ) : ℚ)
  else
    cmd.pixel

/-- A `SETTINGS_UPDATED` payload: both fields optional (partial update). -/
structure SettingsPayload where
  enableSync : Option Bool
  syncMode : Option SyncMode
deriving DecidableEq

/-- Embedding of `handleSettingsUpdateMessage` (content.js lines
172-180): each field is written only when present in the payload
(`!== undefined` in the source). -/
def handleSettingsUpdateMessage (s : ScrollState) (payload : SettingsPayload) : ScrollState :=
  let s1 := match payload.enableSync with
    | some b => { s with enableSync := b }
    | none => s
  match payload.syncMode with
  | some m => { s1 with syncMode := m }
  | none => s1

/-- One millisecond tick of the `isSyncing` flag discipline of
`handleSyncScrollMessage` (content.js lines 132-154) with
`enableSync = true`: each command arrival sets `isSyncing := true` and
registers `setTimeout(... isSyncing = false ..., syncTimeout)`, which is
never cancelled.  At timestamp `time`, a pending timeout registered by an
arrival at `time - syncTimeout` fires and clears the flag; an arrival at
`time` itself sets the flag (when both fall on the same timestamp the
arrival is processed after the timeout). -/
def syncStep (arrivals : List ℕ) (s : Bool) (time : ℕ) : Bool :=
  if time ∈ arrivals then true
  else if syncTimeout ≤ time ∧ time - syncTimeout ∈ arrivals then false
  else s

/-- The value of `ScrollState.isSyncing` at time `t`, given the arrival
times of the accepted `SYNC_SCROLL` commands, starting from the initial
state `isSyncing = false`. -/
def isSyncingAt (arrivals : List ℕ) (t : ℕ) : Bool :=
  (List.range (t + 1)).foldl (syncStep arrivals) false

/-- A browser tab as seen by the background script: id, window, and the
three optional grouping signals.  `index` is optional so the embedding
can express the hypothetical in which even the position signal is
absent. -/
structure Tab where
  id : ℕ
  windowId : ℕ
  splitViewId : Option String
  groupId : Option ℤ
  index : Option ℕ
deriving DecidableEq

/-- JavaScript template-literal interpolation of a possibly-`undefined`
number: `undefined` stringifies to the text `"undefined"`. -/
def jsInterpolateNat : Option ℕ → String
  | some n => toString n
  | none => "undefined"

/-- Embedding of `getSplitViewId` (background.js lines 197-215): return
`tab.splitViewId` when defined; else `group-` + `tab.groupId` when that
is defined; else the template literal `pos-` + `tab.index`.  The final
`try/catch` of the source can only throw when `tab` itself is not an
object, which the embedding's `Tab` type rules out, so the `undefined`
fallback of the source is unreachable here: interpolation of an absent
`index` yields the string `"pos-undefined"`, not `undefined`. -/
def getSplitViewId (tab : Tab) : Option String :=
  match tab.splitViewId with
  | some v => some v
  | none =>
    match tab.groupId with
    | some g => some ("group-" ++ toString g)
    | none => some ("pos-" ++ jsInterpolateNat tab.index)

/-- Embedding of `isInSameSplitView` (background.js lines 280-294): both
ids `undefined` counts as same view; exactly one `undefined` does not;
two defined ids compare by strict equality. -/
def isInSameSplitView (id1 id2 : Option String) : Bool :=
  match id1, id2 with
  | none, none => true
  | none, some _ => false
  | some _, none => false
  | some a, some b => a == b

/-- The process-wide settings read by the Router (`getSettings`). -/
structure SyncSettings where
  enableSync : Bool
  syncMode : SyncMode
deriving DecidableEq

/-- One iteration of the relay loop of `relayScrollEventToTabs`
(background.js lines 249-268): skip the sender; test
`isInSameSplitView(senderSplitViewId, tab.splitViewId)` against the
candidate's raw `splitViewId`; attempt the send inside its own
`try/catch`, so a failed send leaves the accumulated deliveries
unchanged and the loop continues with the next tab. -/
def relayStep (senderId : ℕ) (senderSplitViewId : Option String) (cmd : SyncCommand)
    (send : ℕ → Except String Unit) (delivered : List (ℕ × SyncCommand)) (tab : Tab) :
    List (ℕ × SyncCommand) :=
  if tab.id = senderId then delivered
  else if isInSameSplitView senderSplitViewId tab.splitViewId then
    match send tab.id with
    | .ok _ => delivered ++ [(tab.id, cmd)]
    | .error _ => delivered
  else delivered

/-- Embedding of `relayScrollEventToTabs` (background.js lines 243-272):
iterate over the queried tabs, forwarding to each qualifying tab a
`SYNC_SCROLL` payload made of the original metrics spread together with
the relay-time `syncMode`.  Returns the list of successful deliveries
(tab id paired with the forwarded command). -/
def relayScrollEventToTabs (tabs : List Tab) (senderId : ℕ)
    (senderSplitViewId : Option String) (metrics : ScrollMetrics) (syncMode : SyncMode)
    (send : ℕ → Except String Unit) : List (ℕ × SyncCommand) :=
  tabs.foldl
    (relayStep senderId senderSplitViewId
      { percentage := metrics.percentage, pixel := metrics.pixel, syncMode := some syncMode }
      send)
    []

/-- Embedding of `handleScrollEvent` (background.js lines 174-190): drop
the event when `enableSync` is false; otherwise resolve the sender's key
with `getSplitViewId` and relay over the tabs of the sender's window
(the `chrome.tabs.query run on windowId` is the filter). -/
def handleScrollEvent (allTabs : List Tab) (sender : Tab) (settings : SyncSettings)
    (metrics : ScrollMetrics) (send : ℕ → Except String Unit) : List (ℕ × SyncCommand) :=
  if !settings.enableSync then []
  else
    relayScrollEventToTabs (allTabs.filter (fun t => t.windowId == sender.windowId))
      sender.id (getSplitViewId sender) metrics settings.syncMode send

/-- A delivery oracle under which every send succeeds. -/
def okSend : ℕ → Except String Unit := fun _ => .ok ()

/-- The loop guard of `relayStep` as a predicate on a candidate tab:
not the sender, same split view per the source's raw-id test, and the
send succeeds. -/
def deliveredTo (senderId : ℕ) (senderSplitViewId : Option String)
    (send : ℕ → Except String Unit) (tab : Tab) : Bool :=
  !(tab.id == senderId) && isInSameSplitView senderSplitViewId tab.splitViewId &&
    (match send tab.id with
     | .ok _ => true
     | .error _ => false)

theorem relay_foldl_eq (tabs : List Tab) (senderId : ℕ) (key : Option String)
    (cmd : SyncCommand) (send : ℕ → Except String Unit) (acc : List (ℕ × SyncCommand)) :
    tabs.foldl (relayStep senderId key cmd send) acc =
      acc ++ (tabs.filter (deliveredTo senderId key send)).map (fun t => (t.id, cmd)) := by
  induction tabs generalizing acc with
  | nil => simp
  | cons t ts ih =>
    simp only [List.foldl_cons, List.filter_cons, ih]
    by_cases hid : t.id = senderId
    · simp [relayStep, deliveredTo, hid]
    · by_cases hsv : isInSameSplitView key t.splitViewId
      · cases hsend : send t.id with
        | ok v => simp [relayStep, deliveredTo, hid, hsv, hsend]
        | error e => simp [relayStep, deliveredTo, hid, hsv, hsend]
      · simp [relayStep, deliveredTo, hid, hsv]

theorem relay_eq_filter (tabs : List Tab) (senderId : ℕ) (key : Option String)
    (metrics : ScrollMetrics) (syncMode : SyncMode) (send : ℕ → Except String Unit) :
    relayScrollEventToTabs tabs senderId key metrics syncMode send =
      (tabs.filter (deliveredTo senderId key send)).map
        (fun t => (t.id, { percentage := metrics.percentage, pixel := metrics.pixel,
                           syncMode := some syncMode : SyncCommand })) := by
  simpa using relay_foldl_eq tabs senderId key _ send []

/-- C2: for every Observer state in which `isSyncing` (the spec's
`isApplyingSync`) is true, running the scheduled emission handler
`handleUserScroll` produces no outbound `SCROLL_EVENT`: a sync-driven
scroll never causes a re-broadcast while the suppression flag is set. -/
theorem c2_no_emission_while_syncing (s : ScrollState) (p : Page)
    (h : s.isSyncing = true) :
    (handleUserScroll s p).emitted = none := by
  simp [handleUserScroll, h]

/-- Witness for C2 at a concrete syncing state and a scrollable page. -/
theorem c2_no_emission_while_syncing_witness :
    (handleUserScroll ⟨true, true, .percentage, true⟩ ⟨1000, 500, 250⟩).emitted = none :=
  c2_no_emission_while_syncing ⟨true, true, .percentage, true⟩ ⟨1000, 500, 250⟩ rfl

/-- C3: on every page, if the scrollable range R = scrollHeight −
viewportHeight is positive, `calculateScrollMetrics` produces exactly
percentage = y/R and pixel = y; and if R ≤ 0 it produces no metrics, so
`handleUserScroll` emits nothing for any scroll offset and any state. -/
theorem c3_scroll_metrics_spec (p : Page) :
    (0 < scrollableRange p →
      calculateScrollMetrics p =
        some { percentage := p.scrollY / (scrollableRange p : ℚ), pixel := p.scrollY }) ∧
    (scrollableRange p ≤ 0 →
      calculateScrollMetrics p = none ∧
        ∀ s : ScrollState, (handleUserScroll s p).emitted = none) := by
  constructor
  · intro h
    simp only [scrollableRange] at h
    simp [calculateScrollMetrics, scrollableRange, not_le.mpr h]
  · intro h
    simp only [scrollableRange] at h
    have hm : calculateScrollMetrics p = none := by
      simp [calculateScrollMetrics, h]
    refine ⟨hm, fun s => ?_⟩
    by_cases hg : (!s.enableSync || s.isSyncing) = true
    · simp [handleUserScroll, hg]
    · simp [handleUserScroll, hg, hm]

/-- Witness for C3: a 1000-pixel document in a 500-pixel viewport at
offset 250 yields percentage 1/2 and pixel 250; a page with R ≤ 0 yields
no metrics and no emission. -/
theorem c3_scroll_metrics_spec_witness :
    calculateScrollMetrics ⟨1000, 500, 250⟩ =
        some { percentage := (250 : ℚ) / ((500 : ℤ) : ℚ), pixel := 250 } ∧
      calculateScrollMetrics ⟨400, 500, 30⟩ = none ∧
      (handleUserScroll ⟨false, true, .percentage, true⟩ ⟨400, 500, 30⟩).emitted = none :=
  ⟨(c3_scroll_metrics_spec ⟨1000, 500, 250⟩).1 (by decide),
   ((c3_scroll_metrics_spec ⟨400, 500, 30⟩).2 (by decide)).1,
   ((c3_scroll_metrics_spec ⟨400, 500, 30⟩).2 (by decide)).2 ⟨false, true, .percentage, true⟩⟩

/-- C4: `calculateTargetScrollPosition` uses the command's `syncMode`
when present and the Observer's cached mode otherwise; in percentage
mode it returns percentage × (local scrollHeight − local viewportHeight),
the receiver's own range; in pixel mode it returns the command's pixel
value unmodified (no clamping to the receiver's range). -/
theorem c4_target_position_spec (s : ScrollState) (p : Page) (cmd : SyncCommand) :
    (∀ m, cmd.syncMode = some m →
      calculateTargetScrollPosition s p cmd =
        if m = .percentage then cmd.percentage * ((scrollableRange p : ℤ) : ℚ)
        else cmd.pixel) ∧
    (cmd.syncMode = none →
      calculateTargetScrollPosition s p cmd =
        if s.syncMode = .percentage then cmd.percentage * ((scrollableRange p : ℤ) : ℚ)
        else cmd.pixel) := by
  constructor
  · intro m hm
    simp [calculateTargetScrollPosition, hm, scrollableRange]
  · intro hm
    simp [calculateTargetScrollPosition, hm, scrollableRange]

/-- Witness for C4: a command tagged pixel overrides a percentage-mode
receiver and lands at its raw pixel even though the receiver's range is
shorter; an untagged percentage command uses the receiver's own range. -/
theorem c4_target_position_spec_witness :
    calculateTargetScrollPosition ⟨false, true, .percentage, false⟩ ⟨600, 500, 0⟩
        ⟨1/4, 900, some .pixel⟩ = 900 ∧
      calculateTargetScrollPosition ⟨false, true, .percentage, false⟩ ⟨2500, 500, 0⟩
        ⟨1/4, 900, none⟩ = 1/4 * ((2000 : ℤ) : ℚ) := by
  constructor
  · have h := (c4_target_position_spec ⟨false, true, .percentage, false⟩ ⟨600, 500, 0⟩
      ⟨1/4, 900, some .pixel⟩).1 .pixel rfl
    simpa using h
  · have h := (c4_target_position_spec ⟨false, true, .percentage, false⟩ ⟨2500, 500, 0⟩
      ⟨1/4, 900, none⟩).2 rfl
    simpa [scrollableRange] using h

/-- C5 counterexample: the claim says `handleUserScroll` clears the
scheduled flag first, before the gate checks and the metrics
computation.  On a concrete enabled, non-syncing state and a scrollable
page, the first action of the handler's trace is the gate check, not the
flag clear, refuting the claim as stated. -/
theorem c5_clear_not_first_counterexample :
    (handleUserScroll ⟨false, true, .percentage, true⟩ ⟨1000, 500, 250⟩).trace.head? ≠
      some Action.clearScheduled := by
  decide

/-- C5 amended: `handleUserScroll` clears `isScrollScheduled` on every
path, but as the last action of the path — after the gate checks and any
metrics computation, not before them — and therefore always returns with
the scheduled flag false. -/
theorem c5_clear_scheduled_last_on_every_path (s : ScrollState) (p : Page) :
    (handleUserScroll s p).trace.head? = some Action.checkGate ∧
      (handleUserScroll s p).trace.getLast? = some Action.clearScheduled ∧
      (handleUserScroll s p).state.isScrollScheduled = false := by
  by_cases hg : (!s.enableSync || s.isSyncing) = true
  · simp [handleUserScroll, hg]
  · cases hm : calculateScrollMetrics p with
    | none => simp [handleUserScroll, hg, hm]
    | some m => simp [handleUserScroll, hg, hm]

/-- C7: `handleSettingsUpdateMessage` applies only the fields present in
the payload; an absent field leaves the current value untouched, and in
particular the payload with only `enableSync := false` leaves `syncMode`
unchanged while turning sync off. -/
theorem c7_partial_settings_update (s : ScrollState) (payload : SettingsPayload) :
    (payload.enableSync = none →
      (handleSettingsUpdateMessage s payload).enableSync = s.enableSync) ∧
    (payload.syncMode = none →
      (handleSettingsUpdateMessage s payload).syncMode = s.syncMode) ∧
    (handleSettingsUpdateMessage s ⟨some false, none⟩).syncMode = s.syncMode ∧
    (handleSettingsUpdateMessage s ⟨some false, none⟩).enableSync = false := by
  refine ⟨fun he => ?_, fun hm => ?_, ?_, ?_⟩
  · cases hm : payload.syncMode with
    | none => simp [handleSettingsUpdateMessage, he, hm]
    | some m => simp [handleSettingsUpdateMessage, he, hm]
  · cases he : payload.enableSync with
    | none => simp [handleSettingsUpdateMessage, he, hm]
    | some b => simp [handleSettingsUpdateMessage, he, hm]
  · simp [handleSettingsUpdateMessage]
  · simp [handleSettingsUpdateMessage]

/-- Witness for C7 at a concrete subscriber in pixel mode: an
`enableSync`-only payload flips the flag and leaves the mode alone, and
an empty payload changes nothing. -/
theorem c7_partial_settings_update_witness :
    (handleSettingsUpdateMessage ⟨false, true, .pixel, false⟩ ⟨some false, none⟩).syncMode =
        SyncMode.pixel ∧
      (handleSettingsUpdateMessage ⟨false, true, .pixel, false⟩ ⟨some false, none⟩).enableSync =
        false ∧
      (handleSettingsUpdateMessage ⟨false, true, .pixel, false⟩ ⟨none, none⟩).enableSync = true :=
  ⟨(c7_partial_settings_update ⟨false, true, .pixel, false⟩ ⟨some false, none⟩).2.2.1,
   (c7_partial_settings_update ⟨false, true, .pixel, false⟩ ⟨some false, none⟩).2.2.2,
   (c7_partial_settings_update ⟨false, true, .pixel, false⟩ ⟨none, none⟩).1 rfl⟩

/-- C10: every run of the scheduled emission handler terminates with
`isScrollScheduled = false`, on every branch — sync disabled, currently
syncing, non-scrollable page, or successful emission — so the coalescing
throttle can always accept and schedule the next scroll notification. -/
theorem c10_scheduled_flag_cleared (s : ScrollState) (p : Page) :
    (handleUserScroll s p).state.isScrollScheduled = false := by
  by_cases hg : (!s.enableSync || s.isSyncing) = true
  · simp [handleUserScroll, hg]
  · cases hm : calculateScrollMetrics p with
    | none => simp [handleUserScroll, hg, hm]
    | some m => simp [handleUserScroll, hg, hm]

/-- C1 counterexample: the claim says every candidate whose resolved
group key (per the priority chain of `getSplitViewId`) equals the
sender's resolved key receives a `SyncCommand`.  Take a sender and a
candidate in the same window, both with no `splitViewId` and the same
tab-group id 5: both resolve to the same defined key `group-5`, yet the
relay delivers nothing, because the loop tests the candidate's raw
`splitViewId` (here `undefined`) against the sender's resolved key. -/
theorem c1_resolved_key_counterexample :
    getSplitViewId (⟨2, 1, none, some 5, some 1⟩ : Tab) =
        getSplitViewId (⟨1, 1, none, some 5, some 0⟩ : Tab) ∧
      (getSplitViewId (⟨2, 1, none, some 5, some 1⟩ : Tab)).isSome = true ∧
      handleScrollEvent [⟨1, 1, none, some 5, some 0⟩, ⟨2, 1, none, some 5, some 1⟩]
        ⟨1, 1, none, some 5, some 0⟩ ⟨true, .percentage⟩ ⟨1/2, 250⟩ okSend = [] :=
  ⟨rfl, rfl, rfl⟩

/-- C1 amended: with `enableSync = true`, a candidate tab of the
sender's window receives the `SyncCommand` (the event's metrics tagged
with the active `syncMode`) iff its *raw* `splitViewId` matches the
sender's resolved key under `isInSameSplitView`; the candidate's own
resolved group key plays no role. -/
theorem c1_relay_matches_raw_split_view_id (allTabs : List Tab) (sender : Tab)
    (settings : SyncSettings) (metrics : ScrollMetrics)
    (hEnable : settings.enableSync = true) :
    (∀ c : Tab, c ∈ allTabs → c.windowId = sender.windowId → c.id ≠ sender.id →
      isInSameSplitView (getSplitViewId sender) c.splitViewId = true →
      (c.id, { percentage := metrics.percentage, pixel := metrics.pixel,
               syncMode := some settings.syncMode : SyncCommand }) ∈
        handleScrollEvent allTabs sender settings metrics okSend) ∧
    (∀ d ∈ handleScrollEvent allTabs sender settings metrics okSend,
      ∃ t : Tab, t ∈ allTabs ∧ t.windowId = sender.windowId ∧ t.id = d.1 ∧
        t.id ≠ sender.id ∧
        isInSameSplitView (getSplitViewId sender) t.splitViewId = true ∧
        d.2 = { percentage := metrics.percentage, pixel := metrics.pixel,
                syncMode := some settings.syncMode }) := by
  have hev : handleScrollEvent allTabs sender settings metrics okSend =
      ((allTabs.filter (fun t => t.windowId == sender.windowId)).filter
          (deliveredTo sender.id (getSplitViewId sender) okSend)).map
        (fun t => (t.id, { percentage := metrics.percentage, pixel := metrics.pixel,
                           syncMode := some settings.syncMode })) := by
    simp [handleScrollEvent, hEnable, relay_eq_filter]
  constructor
  · intro c hc hw hid hsv
    rw [hev]
    refine List.mem_map.mpr ⟨c, List.mem_filter.mpr ⟨List.mem_filter.mpr ⟨hc, ?_⟩, ?_⟩, rfl⟩
    · simpa using hw
    · simp [deliveredTo, okSend, hid, hsv]
  · intro d hd
    rw [hev] at hd
    obtain ⟨t, ht, hmap⟩ := List.mem_map.mp hd
    obtain ⟨ht1, ht2⟩ := List.mem_filter.mp ht
    obtain ⟨htabs, hwin⟩ := List.mem_filter.mp ht1
    simp only [deliveredTo, okSend, Bool.and_eq_true, Bool.not_eq_true', beq_eq_false_iff_ne]
      at ht2
    exact ⟨t, htabs, by simpa using hwin, by rw [← hmap], ht2.1.1, ht2.1.2,
      by rw [← hmap]⟩

/-- Witness for C1 amended: two tabs sharing raw split-view id `sv1`
(plus an unrelated tab in split view `sv2`); the candidate with the
matching raw id receives the tagged command. -/
theorem c1_relay_matches_raw_split_view_id_witness :
    ((2 : ℕ), { percentage := 1/2, pixel := 250, syncMode := some .percentage : SyncCommand }) ∈
      handleScrollEvent
        [⟨1, 1, some "sv1", none, some 0⟩, ⟨2, 1, some "sv1", none, some 1⟩,
         ⟨3, 1, some "sv2", none, some 2⟩]
        ⟨1, 1, some "sv1", none, some 0⟩ ⟨true, .percentage⟩ ⟨1/2, 250⟩ okSend :=
  (c1_relay_matches_raw_split_view_id
      [⟨1, 1, some "sv1", none, some 0⟩, ⟨2, 1, some "sv1", none, some 1⟩,
       ⟨3, 1, some "sv2", none, some 2⟩]
      ⟨1, 1, some "sv1", none, some 0⟩ ⟨true, .percentage⟩ ⟨1/2, 250⟩ rfl).1
    ⟨2, 1, some "sv1", none, some 1⟩ (by decide) rfl (by decide) (by decide)

/-- C8: in a relay fan-out over sibling tabs, a delivery failure to one
tab (the send oracle returns an error for it, swallowed by the
per-recipient `try/catch`) neither aborts delivery to the remaining tabs
nor propagates an error upward: any other tab of the same pass that
qualifies and whose own send succeeds still receives its `SyncCommand`.
The relay's return type is a plain list of deliveries, so no error can
escape it by construction. -/
theorem c8_delivery_failure_isolated (tabs : List Tab) (senderId : ℕ)
    (key : Option String) (metrics : ScrollMetrics) (syncMode : SyncMode)
    (send : ℕ → Except String Unit) (a b : Tab) (e : String)
    (ha : a ∈ tabs) (hafail : send a.id = .error e)
    (hb : b ∈ tabs) (hbid : b.id ≠ senderId)
    (hbsv : isInSameSplitView key b.splitViewId = true)
    (hbok : send b.id = .ok ()) :
    (b.id, { percentage := metrics.percentage, pixel := metrics.pixel,
             syncMode := some syncMode : SyncCommand }) ∈
      relayScrollEventToTabs tabs senderId key metrics syncMode send := by
  rw [relay_eq_filter]
  exact List.mem_map.mpr
    ⟨b, List.mem_filter.mpr ⟨hb, by simp [deliveredTo, hbid, hbsv, hbok]⟩, rfl⟩

/-- A concrete delivery oracle for the C8 witness: tab 2 is unreachable,
every other tab accepts the message. -/
def failTab2 : ℕ → Except String Unit :=
  fun i => if i = 2 then .error "tab gone" else .ok ()

/-- Witness for C8: sender 1 relays to siblings 2 and 3 of the same
split view; delivery to 2 fails, yet 3 still receives its command. -/
theorem c8_delivery_failure_isolated_witness :
    ((3 : ℕ), { percentage := 1/2, pixel := 250, syncMode := some .percentage : SyncCommand }) ∈
      relayScrollEventToTabs
        [⟨1, 1, some "sv1", none, some 0⟩, ⟨2, 1, some "sv1", none, some 1⟩,
         ⟨3, 1, some "sv1", none, some 2⟩]
        1 (some "sv1") ⟨1/2, 250⟩ .percentage failTab2 :=
  c8_delivery_failure_isolated
    [⟨1, 1, some "sv1", none, some 0⟩, ⟨2, 1, some "sv1", none, some 1⟩,
     ⟨3, 1, some "sv1", none, some 2⟩]
    1 (some "sv1") ⟨1/2, 250⟩ .percentage failTab2
    ⟨2, 1, some "sv1", none, some 1⟩ ⟨3, 1, some "sv1", none, some 2⟩ "tab gone"
    (by decide) rfl (by decide) (by decide) (by decide) rfl

/-- C9: evaluation of the code at the claim's scenario.  A sender with
all three grouping signals absent does not resolve to the "ungrouped"
bucket: `getSplitViewId` stringifies the absent index into the *defined*
key `pos-undefined` (indeed it returns a defined key on every input), and
the relay then delivers to no tab at all — not to every other tab of the
window as the claim (and the source's own comments) describe. -/
theorem c9_ungrouped_fallback_eval :
    getSplitViewId (⟨1, 1, none, none, none⟩ : Tab) = some "pos-undefined" ∧
      (∀ tab : Tab, (getSplitViewId tab).isSome = true) ∧
      handleScrollEvent [⟨1, 1, none, none, none⟩, ⟨2, 1, none, none, none⟩]
        ⟨1, 1, none, none, none⟩ ⟨true, .percentage⟩ ⟨1/2, 250⟩ okSend = [] := by
  refine ⟨by decide, fun tab => ?_, rfl⟩
  cases hs : tab.splitViewId with
  | some v => simp [getSplitViewId, hs]
  | none =>
    cases hg : tab.groupId with
    | some g => simp [getSplitViewId, hs, hg]
    | none => simp [getSplitViewId, hs, hg]

theorem isSyncingAt_succ (arrivals : List ℕ) (t : ℕ) :
    isSyncingAt arrivals (t + 1) = syncStep arrivals (isSyncingAt arrivals t) (t + 1) := by
  unfold isSyncingAt
  rw [List.range_succ, List.foldl_append]
  rfl

/-- C6 counterexample: commands arrive at t=0 and t=30 (within the
first command's 50ms window).  The claim says the suppression window is
extended, i.e. `isSyncing` stays true until 30+50=80; but at t=60 the
flag is already false, because the first command's timeout fired at
t=50 and was never cancelled. -/
theorem c6_window_not_extended_counterexample :
    (0 : ℕ) < 30 ∧ (30 : ℕ) < 0 + syncTimeout ∧ (30 : ℕ) ≤ 60 ∧
      (60 : ℕ) < 30 + syncTimeout ∧ isSyncingAt [0, 30] 60 = false := by
  decide

/-- C6 amended: when a second `SYNC_SCROLL` command arrives before the
first command's quiescence delay elapses, it re-sets `isSyncing` to true
and schedules its own timeout, but the first command's pending timeout
is not cancelled: it fires at `a1 + syncTimeout` and clears the flag, so
the flag is true from the second arrival only up to `a1 + syncTimeout`
and is false from that moment on — the suppression window is not
extended to `a2 + syncTimeout`. -/
theorem c6_first_timer_clears_flag (a1 a2 : ℕ) (h1 : a1 < a2)
    (h2 : a2 < a1 + syncTimeout) :
    (∀ t, a2 ≤ t → t < a1 + syncTimeout → isSyncingAt [a1, a2] t = true) ∧
    (∀ t, a1 + syncTimeout ≤ t → isSyncingAt [a1, a2] t = false) := by
  have hpos : 0 < syncTimeout := by decide
  constructor
  · intro t ht
    induction t, ht using Nat.le_induction with
    | base =>
      intro _
      obtain ⟨k, hk⟩ : ∃ k, a2 = k + 1 := ⟨a2 - 1, by omega⟩
      have hmem : k + 1 ∈ [a1, a2] := by simp [hk]
      rw [hk, isSyncingAt_succ]
      simp [syncStep, hmem]
    | succ n hn ih =>
      intro hlt
      have hmem : ¬ (n + 1 ∈ [a1, a2]) := by simp; omega
      have hclr : ¬ (syncTimeout ≤ n + 1 ∧ n + 1 - syncTimeout ∈ [a1, a2]) := by
        simp only [List.mem_cons, List.not_mem_nil, or_false, not_and, not_or]
        omega
      rw [isSyncingAt_succ]
      simp only [syncStep, if_neg hmem, if_neg hclr]
      exact ih (by omega)
  · intro t ht
    induction t, ht using Nat.le_induction with
    | base =>
      obtain ⟨k, hk⟩ : ∃ k, a1 + syncTimeout = k + 1 := ⟨a1 + syncTimeout - 1, by omega⟩
      have hmem : ¬ (k + 1 ∈ [a1, a2]) := by simp; omega
      have hclr : syncTimeout ≤ k + 1 ∧ k + 1 - syncTimeout ∈ [a1, a2] := by
        refine ⟨by omega, ?_⟩
        simp
        omega
      rw [hk, isSyncingAt_succ]
      simp [syncStep, hmem, hclr]
    | succ n hn ih =>
      have hmem : ¬ (n + 1 ∈ [a1, a2]) := by simp; omega
      rw [isSyncingAt_succ, ih]
      simp [syncStep, hmem]

/-- Witness for C6 amended at arrivals 0 and 30: the flag is still true
at t=40 (inside the first window) and already false at t=60 (after the
first, uncancelled timeout; before 30+50=80). -/
theorem c6_first_timer_clears_flag_witness :
    isSyncingAt [0, 30] 40 = true ∧ isSyncingAt [0, 30] 60 = false :=
  ⟨(c6_first_timer_clears_flag 0 30 (by decide) (by decide)).1 40 (by decide) (by decide),
   (c6_first_timer_clears_flag 0 30 (by decide) (by decide)).2 60 (by decide)⟩

end SplitViewScroller
